import Mathlib

/-!
Verification of the TFTP transfer engine in
`Tribler/Core/Service/TFTP/handler.py` (class `TftpHandler`).

The embedding below translates the handler into pure Lean functions:
mutable `Session` objects become explicit state passing, outbound packets
and callback invocations are collected into event lists, the wall clock is
an explicit `now : Nat` parameter, and the filesystem is a finite map from
paths (component lists) to byte contents.  Exceptions raised by the Python
code are `Except` errors.  The `Session` class and the packet codec live in
modules (`session.py`, `packet.py`) that are not part of the given sources;
the corresponding definitions are modelled from the specification and are
marked as such in their doc comments.
-/

namespace Tftp

/-- Wire opcodes of the protocol (RRQ, WRQ, ACK, DATA, OACK, ERROR). -/
inductive Opcode where
  | rrq
  | wrq
  | ack
  | data
  | oack
  | error
  deriving DecidableEq, Repr

/-- Option section of a request or OACK packet: `blksize`, `timeout`, `tsize`.
A `none` field means the option key is absent from the dictionary. -/
structure ReqOptions where
  blksize : Option Nat := none
  timeout : Option Nat := none
  tsize : Option Nat := none
  deriving DecidableEq, Repr

/-- Decoded packet, mirroring the Python dictionaries built and consumed by the
handler.  `options = none` means the request dictionary has no options key. -/
structure Packet where
  opcode : Opcode
  file_name : String := ""
  block_number : Nat := 0
  data : List Nat := []
  error_code : Nat := 0
  error_msg : String := ""
  options : Option ReqOptions := none
  deriving DecidableEq, Repr

/-- Deferred start action of a queued session, a tagged form of the
`next_func` closures stored by `download_file` (send the initial RRQ)
and intended by `_handle_new_request` (send the initial OACK). -/
inductive DeferredAction where
  | sendRequest
  | sendOack
  deriving DecidableEq, Repr

/-- Modelled from the spec: `DEFAULT_BLOCK_SIZE` from the missing `session.py`
module; section 8 scenario A gives the default block size 512. -/
def DEFAULT_BLOCK_SIZE : Nat := 512

/-- Modelled from the spec: `DEFAULT_TIMEOUT` from the missing `session.py`
module; section 8 scenario A gives the default timeout 5 seconds. -/
def DEFAULT_TIMEOUT : Nat := 5

/-- Modelled from the spec: the `Session` class of the missing `session.py`
module, data model of section 3.  Field names follow the attribute names the
handler uses; `block_number` starts at 0, the terminal flags start false,
`last_read_count` and the deferred start are initially absent.  The two
callback fields record whether a callback was registered; invocations are
emitted as events by the engine functions. -/
structure Session where
  is_client : Bool
  address : Nat × Nat
  request : Opcode
  file_name : String
  file_data : List Nat
  file_size : Option Nat
  block_size : Nat := DEFAULT_BLOCK_SIZE
  timeout : Nat := DEFAULT_TIMEOUT
  block_number : Nat := 0
  last_read_count : Option Nat := none
  last_contact_time : Nat := 0
  last_sent_packet : Option Packet := none
  last_received_packet : Option Packet := none
  is_done : Bool := false
  is_failed : Bool := false
  next_func : Option DeferredAction := none
  success_callback : Bool := false
  failure_callback : Bool := false
  deriving DecidableEq, Repr

/-- Modelled from the spec: `ERROR_DICT` from the missing `packet.py` module,
a table of standard error codes and messages (section 7: codes for not found,
illegal operation, generic error). -/
def ERROR_DICT : List (Nat × String) :=
  [(0, "Not defined"), (1, "File not found"), (2, "Access violation"),
   (4, "Illegal TFTP operation")]

/-- `TftpHandler._send_packet`: emits the packet and updates the session
bookkeeping fields (`last_contact_time`, `last_sent_packet`). -/
def send_packet (now : Nat) (s : Session) (p : Packet) : Session × List Packet :=
  ({ s with last_contact_time := now, last_sent_packet := some p }, [p])

/-- `TftpHandler._send_request_packet`: the initial RRQ of a client session. -/
def send_request_packet (now : Nat) (s : Session) : Session × List Packet :=
  send_packet now s
    { opcode := s.request, file_name := s.file_name,
      options := some { blksize := some s.block_size, timeout := some s.timeout } }

/-- `TftpHandler._send_data_packet`. -/
def send_data_packet (now : Nat) (s : Session) (bn : Nat) (d : List Nat) :
    Session × List Packet :=
  send_packet now s { opcode := Opcode.data, block_number := bn, data := d }

/-- `TftpHandler._send_ack_packet`. -/
def send_ack_packet (now : Nat) (s : Session) (bn : Nat) : Session × List Packet :=
  send_packet now s { opcode := Opcode.ack, block_number := bn }

/-- `TftpHandler._send_error_packet`. -/
def send_error_packet (now : Nat) (s : Session) (c : Nat) (m : String) :
    Session × List Packet :=
  send_packet now s { opcode := Opcode.error, error_code := c, error_msg := m }

/-- `TftpHandler._send_oack_packet`: the initial OACK of a server session,
advertising the negotiated block size, timeout and transfer size. -/
def send_oack_packet (now : Nat) (s : Session) : Session × List Packet :=
  send_packet now s
    { opcode := Opcode.oack, block_number := s.block_number,
      options := some { blksize := some s.block_size, timeout := some s.timeout,
                        tsize := s.file_size } }

/-- `TftpHandler._handle_error`: the shared failure path; marks the session
failed and sends an ERROR packet with the message from `ERROR_DICT`. -/
def handle_error (now : Nat) (s : Session) (error_code : Nat)
    (error_msg : String := "") : Session × List Packet :=
  let s := { s with is_failed := true }
  let msg := (ERROR_DICT.lookup error_code).getD error_msg
  send_error_packet now s error_code msg

/-- `TftpHandler._get_next_data`: extracts the next outgoing block.  Faithful
to the source, the slice end uses the configured block size of the handler
(`self.block_size`, the first argument) while the start offset and the
done check use the negotiated `block_size` of the session. -/
def get_next_data (handler_block_size : Nat) (s : Session) : Session × List Nat :=
  let start_idx := s.block_number * s.block_size
  let end_idx := start_idx + handler_block_size
  let data := (s.file_data.take end_idx).drop start_idx
  let lrc := match s.last_read_count with
    | none => data.length
    | some n => n
  let s := { s with block_number := s.block_number + 1, last_read_count := some lrc }
  let s := if lrc < s.block_size then { s with is_done := true } else s
  let s := { s with last_read_count := some data.length }
  (s, data)

/-- `TftpHandler._handle_packet_as_receiver` (client role). -/
def handle_packet_as_receiver (now : Nat) (s : Session) (p : Packet) :
    Session × List Packet :=
  if p.opcode = Opcode.error then
    handle_error now s 0
  else if p.opcode = Opcode.oack then
    if s.last_received_packet = none then
      if s.request = Opcode.rrq then
        let r := send_ack_packet now s s.block_number
        ({ r.fst with block_number := r.fst.block_number + 1, file_data := [] }, r.snd)
      else
        (s, [])
    else
      handle_error now s 4
  else if p.opcode ≠ Opcode.data then
    handle_error now s 4
  else if p.block_number ≠ s.block_number then
    handle_error now s 0
  else
    let r := send_ack_packet now { s with file_data := s.file_data ++ p.data }
      s.block_number
    let s1 := { r.fst with block_number := r.fst.block_number + 1 }
    (if p.data.length < s1.block_size then { s1 with is_done := true } else s1, r.snd)

/-- `TftpHandler._handle_packet_as_sender` (server role). -/
def handle_packet_as_sender (now : Nat) (handler_block_size : Nat) (s : Session)
    (p : Packet) : Session × List Packet :=
  if p.opcode ≠ Opcode.ack then
    handle_error now s 4
  else if p.block_number ≠ s.block_number then
    handle_error now s 0
  else
    let r := get_next_data handler_block_size s
    if r.fst.is_done then (r.fst, [])
    else send_data_packet now r.fst r.fst.block_number r.snd

/-- `TftpHandler._process_packet`: ERROR packets go to the failure path,
otherwise dispatch by role. -/
def process_packet (now : Nat) (handler_block_size : Nat) (s : Session)
    (p : Packet) : Session × List Packet :=
  if p.opcode = Opcode.error then
    handle_error now s 0
  else if s.is_client then
    handle_packet_as_receiver now s p
  else
    handle_packet_as_sender now handler_block_size s p

/-! ## Filesystem model

Paths are component lists; a leading empty component marks an absolute path
(as produced by splitting a string on the separator).  The operating system
resolves `.` and `..` components when a path is used, so every filesystem
query normalizes its argument first. -/

/-- Exceptions of the Python runtime that the handler code can raise. -/
inductive PyError where
  | os_error (msg : String)
  | attribute_error (msg : String)
  | index_error (msg : String)
  deriving DecidableEq, Repr

/-- Resolution of `.` and `..` components, as the operating system performs
it when a path is dereferenced. -/
def normalizePath (p : List String) : List String :=
  p.foldl
    (fun acc c =>
      if c = "" ∨ c = "." then acc
      else if c = ".." then acc.dropLast
      else acc ++ [c])
    []

/-- Splitting a character list at every occurrence of a separator character
(Python `str.split` semantics: the empty input yields one empty field). -/
def splitChars (sep : Char) (cs : List Char) : List (List Char) :=
  match cs with
  | [] => [[]]
  | c :: rest =>
    let r := splitChars sep rest
    if c = sep then [] :: r
    else
      match r with
      | [] => [[c]]
      | h :: t => (c :: h) :: t

/-- Splitting a path string into components on the separator. -/
def splitPath (s : String) : List String :=
  (splitChars (Char.ofNat 47) s.data).map (fun cs => String.mk cs)

/-- Whether the string `s` starts with the string `t` (Python `startswith`). -/
def listStartsWith (cs ds : List Char) : Bool :=
  match cs, ds with
  | _, [] => true
  | [], _ :: _ => false
  | c :: cs1, d :: ds1 => if c = d then listStartsWith cs1 ds1 else false

/-- String form of `listStartsWith`. -/
def strStartsWith (s t : String) : Bool := listStartsWith s.data t.data

/-- `os.path.join(root, name)`: an absolute second argument discards the
root, otherwise the components are concatenated. -/
def osPathJoin (root : List String) (name : List String) : List String :=
  match name with
  | "" :: _ => name
  | _ => root ++ name

/-- Lookup of a file content by normalized path. -/
def fsLookup (files : List (List String × List Nat)) (p : List String) :
    Option (List Nat) :=
  match files with
  | [] => none
  | (q, c) :: rest => if q = p then some c else fsLookup rest p

/-- A finite filesystem: regular files with their contents, and directories.
Both are keyed by normalized paths. -/
structure FileSystem where
  files : List (List String × List Nat)
  dirs : List (List String)
  deriving DecidableEq, Repr

/-- `os.path.isfile`. -/
def FileSystem.isfile (fs : FileSystem) (p : List String) : Bool :=
  (fsLookup fs.files (normalizePath p)).isSome

/-- Membership of a path in a directory list. -/
def dirMem (ds : List (List String)) (p : List String) : Bool :=
  match ds with
  | [] => false
  | d :: rest => if d = p then true else dirMem rest p

/-- `os.path.isdir`. -/
def FileSystem.isdir (fs : FileSystem) (p : List String) : Bool :=
  dirMem fs.dirs (normalizePath p)

/-- `os.path.exists`. -/
def FileSystem.pathExists (fs : FileSystem) (p : List String) : Bool :=
  fs.isfile p || fs.isdir p

/-- Reading the bytes of a file. -/
def FileSystem.readFile (fs : FileSystem) (p : List String) : Option (List Nat) :=
  fsLookup fs.files (normalizePath p)

/-- The directory separator character of the resource-name syntax (a colon). -/
def DIR_SEPARATOR : Char := Char.ofNat 58

/-- The reserved directory marker (`DIR_PREFIX` in the source): a resource
name carrying it designates a directory to archive. -/
def DIR_MARKER : String := String.mk [Char.ofNat 100, Char.ofNat 105, Char.ofNat 114, DIR_SEPARATOR]

/-- `TftpHandler._load_file` given an explicit resolved path (the branch the
source takes when its optional `file_path` argument is supplied). -/
def load_file_at (fs : FileSystem) (file_path : List String) :
    Except PyError (List Nat × Nat) :=
  if ¬ fs.pathExists file_path then
    Except.error (PyError.os_error "file does not exist")
  else if ¬ fs.isfile file_path then
    Except.error (PyError.os_error "not a file")
  else
    match fs.readFile file_path with
    | none => Except.error (PyError.os_error "failed to read file")
    | some d => Except.ok (d, d.length)

/-- `TftpHandler._load_file`: joins the requested name to the root directory
(with no containment check) and loads the resulting path. -/
def load_file (fs : FileSystem) (root_dir : List String) (file_name : List String) :
    Except PyError (List Nat × Nat) :=
  load_file_at fs (osPathJoin root_dir file_name)

/-- Everything after the first occurrence of a separator character. -/
def dropThroughChar (sep : Char) (cs : List Char) : List Char :=
  match cs with
  | [] => []
  | c :: rest => if c = sep then rest else dropThroughChar sep rest

/-- Python `s.split(sep, 1)[1]` for a one-character separator: the part of
the string after the first separator. -/
def splitOnce (s : String) (sep : Char) : String :=
  String.mk (dropThroughChar sep s.data)

/-- Modelled from the spec: the Directory Packer of the missing packer step
(section 4.2) produces a single archived byte stream of all files under the
directory; the archive is abstracted as the concatenation of the contained
contents of the contained files, and the temporary tar file staging of the source is elided. -/
def packDirectory (fs : FileSystem) (dir_path : List String) : List Nat :=
  (fs.files.filter
      (fun e => decide (e.fst.take (normalizePath dir_path).length = normalizePath dir_path))).foldr
    (fun e acc => e.snd ++ acc) []

/-- `TftpHandler._load_directory`: strips the marker, joins the directory name
to the root, checks existence and kind, and packs the directory. -/
def load_directory (fs : FileSystem) (root_dir : List String) (file_name : String) :
    Except PyError (List Nat × Nat) :=
  let dir_name := splitOnce file_name DIR_SEPARATOR
  let dir_path := osPathJoin root_dir (splitPath dir_name)
  if ¬ fs.pathExists dir_path then
    Except.error (PyError.os_error "directory does not exist")
  else if ¬ fs.isdir dir_path then
    Except.error (PyError.os_error "not a directory")
  else
    let d := packDirectory fs dir_path
    Except.ok (d, d.length)

/-- All nonempty initial segments of a path: the chain of directories that
`os.makedirs` creates. -/
def pathInits (p : List String) : List (List String) :=
  (List.range p.length).map (fun i => p.take (i + 1))

/-- `os.makedirs`: creates the directory and its parents; fails when a
regular file stands in the way of any directory on the chain. -/
def makedirs (fs : FileSystem) (p : List String) : Except PyError FileSystem :=
  let q := normalizePath p
  if (pathInits q).any (fun a => fs.isfile a) then
    Except.error (PyError.os_error "cannot create directory")
  else
    Except.ok { fs with dirs := fs.dirs ++ (pathInits q).filter (fun a => ¬ fs.isdir a) }

/-- `TftpHandler.__init__`, lines 43 to 53: the root-directory validation.
A missing root is created with parents; an exception from the creation, or a
root that exists but is not a directory, propagates out of the constructor.
The result is the filesystem after the side effect. -/
def tftp_init (fs : FileSystem) (root_dir : List String) : Except PyError FileSystem :=
  match (if ¬ fs.pathExists root_dir then makedirs fs root_dir else Except.ok fs) with
  | Except.error e => Except.error e
  | Except.ok fs1 =>
    if fs1.pathExists root_dir ∧ ¬ fs1.isdir root_dir then
      Except.error (PyError.os_error "root_dir is not a directory")
    else
      Except.ok fs1

/-! ## Engine state and observable events -/

/-- Observable effects of the engine: packets put on the wire, callback
invocations with their actual arguments, log lines. -/
inductive Event where
  | sent (addr : Nat × Nat) (p : Packet)
  | success_cb (file_data : List Nat)
  | failure_cb_data (file_data : List Nat)
  | failure_cb_timeout (file_name : String)
  | logged (msg : String)
  deriving DecidableEq, Repr

/-- The mutable state of a `TftpHandler`: configuration, the per-peer session
queues (`_session_dict`, an insertion-ordered dictionary modelled as an
association list), and the handler-level `next_func` attribute that line 223
of the source assigns to. -/
structure EngineState where
  root_dir : List String
  block_size : Nat := DEFAULT_BLOCK_SIZE
  timeout : Nat := DEFAULT_TIMEOUT
  session_dict : List ((Nat × Nat) × List Session) := []
  handler_next_func : Option DeferredAction := none
  deriving DecidableEq, Repr

/-- Dictionary lookup. -/
def dictGet (d : List ((Nat × Nat) × List Session)) (k : Nat × Nat) :
    Option (List Session) :=
  match d with
  | [] => none
  | (k1, v) :: rest => if k1 = k then some v else dictGet rest k

/-- Dictionary update: replaces the value of an existing key in place,
appends a new key at the end (Python dictionaries are insertion ordered). -/
def dictSet (d : List ((Nat × Nat) × List Session)) (k : Nat × Nat)
    (v : List Session) : List ((Nat × Nat) × List Session) :=
  match d with
  | [] => [(k, v)]
  | (k1, v1) :: rest => if k1 = k then (k1, v) :: rest else (k1, v1) :: dictSet rest k v

/-- Dictionary deletion. -/
def dictDel (d : List ((Nat × Nat) × List Session)) (k : Nat × Nat) :
    List ((Nat × Nat) × List Session) :=
  match d with
  | [] => []
  | (k1, v1) :: rest => if k1 = k then rest else (k1, v1) :: dictDel rest k

/-- Invocation of the `next_func` of a promoted session.  A session whose deferred
start was never recorded has no such attribute, and the call raises. -/
def invoke_next_func (now : Nat) (s : Session) :
    Except PyError (Session × List Packet) :=
  match s.next_func with
  | none => Except.error (PyError.attribute_error "session has no next_func")
  | some DeferredAction.sendRequest => Except.ok (send_request_packet now s)
  | some DeferredAction.sendOack => Except.ok (send_oack_packet now s)

/-- Lines 173 to 177 of `data_came_in`: terminal callback dispatch.  The
success callback receives the accumulated data of a done session, the failure
callback receives the accumulated data of a failed session; an unregistered
callback is skipped. -/
def run_callbacks (s : Session) : List Event :=
  if s.is_done ∧ s.success_callback then [Event.success_cb s.file_data]
  else if s.is_failed ∧ s.failure_callback then [Event.failure_cb_data s.file_data]
  else []

/-- `TftpHandler.download_file`: creates a client-role READ session, appends
it to the queue of the peer; a session that becomes queue head immediately sends
its RRQ, otherwise its deferred start is recorded on the session. -/
def download_file (now : Nat) (st : EngineState) (file_name : String)
    (ip port : Nat) (success_callback failure_callback : Bool) :
    EngineState × List Event :=
  let session : Session :=
    { is_client := true, address := (ip, port), request := Opcode.rrq,
      file_name := file_name, file_data := [], file_size := none,
      success_callback := success_callback, failure_callback := failure_callback }
  let q := (dictGet st.session_dict (ip, port)).getD []
  if q = [] then
    let r := send_request_packet now session
    ({ st with session_dict := dictSet st.session_dict (ip, port) [r.fst] },
     r.snd.map (Event.sent (ip, port)))
  else
    let session := { session with next_func := some DeferredAction.sendRequest }
    ({ st with session_dict := dictSet st.session_dict (ip, port) (q ++ [session]) },
     [])

/-- `TftpHandler._handle_new_request`: validates the request, loads the
resource (exceptions from loading propagate), creates a server-role session
and appends it to the queue of the peer.  A session that becomes queue head
immediately sends its OACK; otherwise, faithful to line 223 of the source,
the deferred OACK action is stored on the handler (`self.next_func`), not on
the session. -/
def handle_new_request (now : Nat) (fs : FileSystem) (st : EngineState)
    (ip port : Nat) (p : Packet) : Except PyError (EngineState × List Event) :=
  if p.opcode ≠ Opcode.rrq then
    Except.ok (st, [Event.logged "unexpected request"])
  else
    match p.options with
    | none => Except.ok (st, [Event.logged "no options in request"])
    | some opts =>
      match opts.blksize, opts.timeout with
      | some block_size, some timeout =>
        (if strStartsWith p.file_name DIR_MARKER then
          load_directory fs st.root_dir p.file_name
        else
          load_file fs st.root_dir (splitPath p.file_name)).bind
        (fun load =>
          let session : Session :=
            { is_client := false, address := (ip, port), request := p.opcode,
              file_name := p.file_name, file_data := load.fst,
              file_size := some load.snd, block_size := block_size,
              timeout := timeout }
          let q := (dictGet st.session_dict (ip, port)).getD []
          if q = [] then
            let r := send_oack_packet now session
            Except.ok
              ({ st with session_dict := dictSet st.session_dict (ip, port) [r.fst] },
               r.snd.map (Event.sent (ip, port)))
          else
            Except.ok
              ({ st with
                  session_dict := dictSet st.session_dict (ip, port) (q ++ [session]),
                  handler_next_func := some DeferredAction.sendOack },
               []))
      | _, _ => Except.ok (st, [Event.logged "missing blksize or timeout option"])

/-- `TftpHandler.data_came_in`: the single inbound entry point.  The input is
the decode result (`none` for an `InvalidPacketException`).  Requests go to
new-request handling; responses go to the head session of the queue of the peer;
a terminal head is dequeued, the deferred start of the next session invoked, and
the terminal callbacks run.  Exceptions from the handling propagate. -/
def data_came_in (now : Nat) (fs : FileSystem) (st : EngineState)
    (addr : Nat × Nat) (decoded : Option Packet) :
    Except PyError (EngineState × List Event) :=
  match decoded with
  | none => Except.ok (st, [Event.logged "invalid packet"])
  | some p =>
    if p.opcode = Opcode.rrq ∨ p.opcode = Opcode.wrq then
      handle_new_request now fs st addr.fst addr.snd p
    else
      match dictGet st.session_dict addr with
      | none => Except.ok (st, [Event.logged "empty session list"])
      | some [] => Except.ok (st, [Event.logged "empty session list"])
      | some (s :: rest) =>
        let r := process_packet now st.block_size s p
        let sent := r.snd.map (Event.sent addr)
        if ¬ r.fst.is_done ∧ ¬ r.fst.is_failed then
          Except.ok
            ({ st with session_dict := dictSet st.session_dict addr (r.fst :: rest) },
             sent)
        else
          match rest with
          | [] =>
            Except.ok
              ({ st with session_dict := dictDel st.session_dict addr },
               sent ++ run_callbacks r.fst)
          | nxt :: others =>
            (invoke_next_func now nxt).bind (fun pr =>
              Except.ok
                ({ st with
                    session_dict := dictSet st.session_dict addr (pr.fst :: others) },
                 sent ++ pr.snd.map (Event.sent addr) ++ run_callbacks r.fst))

/-- Body of the loop of `TftpHandler._check_timeout` over the dictionary
entries.  Faithful to the source: the head session is failed when
`last_contact_time + timeout > now`; a failed head is dequeued, its failure
callback invoked with the file name of the session, and the next session promoted;
a queue left empty has its entry removed and the sweep then returns early,
skipping all remaining entries (line 124). -/
def check_timeout_entries (now : Nat)
    (entries : List ((Nat × Nat) × List Session)) :
    Except PyError (List ((Nat × Nat) × List Session) × List Event) :=
  match entries with
  | [] => Except.ok ([], [])
  | (key, q) :: rest =>
    match q with
    | [] => Except.error (PyError.index_error "empty session queue")
    | s :: qrest =>
      if s.last_contact_time + s.timeout > now then
        let ev := if s.failure_callback then [Event.failure_cb_timeout s.file_name]
                  else []
        match qrest with
        | [] => Except.ok (rest, ev)
        | nxt :: others =>
          (invoke_next_func now nxt).bind (fun pr =>
            (check_timeout_entries now rest).bind (fun r =>
              Except.ok ((key, pr.fst :: others) :: r.fst,
                ev ++ pr.snd.map (Event.sent key) ++ r.snd)))
      else
        (check_timeout_entries now rest).bind (fun r =>
          Except.ok ((key, s :: qrest) :: r.fst, r.snd))

/-- `TftpHandler._check_timeout`: the periodic timeout sweep. -/
def check_timeout (now : Nat) (st : EngineState) :
    Except PyError (EngineState × List Event) :=
  (check_timeout_entries now st.session_dict).bind (fun r =>
    Except.ok ({ st with session_dict := r.fst }, r.snd))

/-! ## Engine-applied operation sequences

`data_came_in` delivers packets only to the head session and dequeues it as
soon as it is terminal, so a session receives further packets only while it
is not terminal.  `engineRun` folds a sequence of deliveries over one session
under that regime. -/

/-- One engine-applied delivery: a terminal session receives nothing further
(the engine has dequeued it); a live session processes the packet. -/
def engineStep (handler_block_size : Nat) (s : Session) (op : Nat × Packet) :
    Session :=
  if s.is_done = true ∨ s.is_failed = true then s
  else (process_packet op.fst handler_block_size s op.snd).fst

/-- A sequence of engine-applied deliveries. -/
def engineRun (handler_block_size : Nat) (s : Session)
    (ops : List (Nat × Packet)) : Session :=
  ops.foldl (engineStep handler_block_size) s

/-- The callback events among an event list. -/
def callbackEvents (evs : List Event) : List Event :=
  evs.filter (fun e =>
    match e with
    | Event.success_cb _ => true
    | Event.failure_cb_data _ => true
    | Event.failure_cb_timeout _ => true
    | _ => false)


/-! ## Derived definitions and concrete fixtures used by the verification -/

deriving instance DecidableEq for Except

/-- The ERROR reply packet built by `_send_error_packet`. -/
def error_reply (c : Nat) (m : String) : Packet :=
  { opcode := Opcode.error, error_code := c, error_msg := m }

/-- A path component that the operating system treats as a regular name:
neither empty nor one of the two special components. -/
def cleanComp (c : String) : Prop := ¬(c = "" ∨ c = "." ∨ c = "..")

/-- Server session at block 0 with a 3-byte payload and negotiated block
size 4 (the payload is shorter than one block). -/
def c3s : Session :=
  { is_client := false, address := (1, 1), request := Opcode.rrq,
    file_name := "s.txt", file_data := [1, 2, 3], file_size := some 3,
    block_size := 4, timeout := 5 }

/-- The same session with a 6-byte payload (one full block and one short). -/
def c3s6 : Session := { c3s with file_data := [1, 2, 3, 4, 5, 6], file_size := some 6 }

/-- An ACK for block 0. -/
def c3ack : Packet := { opcode := Opcode.ack, block_number := 0 }

/-- Client session last contacted at time 100 with the default timeout 5 and
a registered failure callback and accumulated partial payload. -/
def c2s : Session :=
  { is_client := true, address := (1, 1), request := Opcode.rrq,
    file_name := "report.txt", file_data := [1, 2, 3], file_size := none,
    last_contact_time := 100, failure_callback := true }

/-- Engine state whose only queue holds `c2s` as its head. -/
def c2st : EngineState :=
  { root_dir := ["root_dir"], session_dict := [((1, 1), [c2s])] }

/-- A root directory containing one 3-byte file `a.txt`. -/
def fsA : FileSystem :=
  { files := [(["root_dir", "a.txt"], [1, 2, 3])], dirs := [["root_dir"]] }

/-- A fresh engine over that root with configured block size 4. -/
def stA : EngineState := { root_dir := ["root_dir"], block_size := 4 }

/-- A well-formed read request for `a.txt` carrying both required options. -/
def rrqA : Packet :=
  { opcode := Opcode.rrq, file_name := "a.txt",
    options := some { blksize := some 4, timeout := some 5 } }

/-- The server session that serving `rrqA` creates. -/
def c1head : Session :=
  { is_client := false, address := (1, 1), request := Opcode.rrq,
    file_name := "a.txt", file_data := [1, 2, 3], file_size := some 3,
    block_size := 4, timeout := 5 }

/-- Engine state in which peer (1, 1) already has `c1head` as active head. -/
def c1stHead : EngineState :=
  { stA with session_dict := [((1, 1), [c1head])] }

/-- The session a second `rrqA` enqueues behind the head (identical fields;
its deferred start is never recorded on it, faithful to line 223). -/
def c1enq : Session :=
  { is_client := false, address := (1, 1), request := Opcode.rrq,
    file_name := "a.txt", file_data := [1, 2, 3], file_size := some 3,
    block_size := 4, timeout := 5 }

/-- The state after the second request: two queued sessions and the deferred
OACK action parked on the handler object. -/
def c1stTwo : EngineState :=
  { stA with session_dict := [((1, 1), [c1head, c1enq])],
             handler_next_func := some DeferredAction.sendOack }

/-- State after one `download_file` call for peer (7, 7). -/
def c1stc1 : EngineState :=
  (download_file 1 { root_dir := ["root_dir"] } "f.txt" 7 7 true true).fst

/-- State after a second `download_file` call for the same peer. -/
def c1stc2 : EngineState := (download_file 2 c1stc1 "g.txt" 7 7 true true).fst

/-- A filesystem with a file outside the root directory. -/
def c5fs : FileSystem :=
  { files := [(["secret"], [9, 9])], dirs := [["root_dir"]] }

/-- A read request whose name climbs out of the root directory. -/
def c5rrq : Packet :=
  { opcode := Opcode.rrq, file_name := "../secret",
    options := some { blksize := some 4, timeout := some 5 } }

/-- A well-formed read request for a file that does not exist. -/
def c6rrq : Packet :=
  { opcode := Opcode.rrq, file_name := "nope.txt",
    options := some { blksize := some 4, timeout := some 5 } }

/-- Client session with an ERROR packet about to arrive. -/
def c7s : Session :=
  { is_client := true, address := (1, 1), request := Opcode.rrq,
    file_name := "f.txt", file_data := [1], file_size := none }

/-- An ERROR packet from the remote peer. -/
def c7p : Packet := { opcode := Opcode.error, error_code := 3, error_msg := "disk full" }

/-- Head session with accumulated partial payload, registered callbacks and
last contact at time 100. -/
def c8s : Session :=
  { is_client := true, address := (1, 1), request := Opcode.rrq,
    file_name := "report.txt", file_data := [1, 2, 3], file_size := none,
    last_contact_time := 100, success_callback := true, failure_callback := true }

/-- Engine state whose only queue holds `c8s`. -/
def c8st : EngineState :=
  { root_dir := ["root_dir"], session_dict := [((1, 1), [c8s])] }

/-- Head session about to fail on a remote ERROR, with callbacks registered. -/
def c8ws : Session :=
  { is_client := true, address := (1, 1), request := Opcode.rrq,
    file_name := "w.txt", file_data := [7, 7], file_size := none,
    success_callback := true, failure_callback := true }

/-- Queued client session with its deferred start recorded. -/
def c8wn : Session :=
  { is_client := true, address := (1, 1), request := Opcode.rrq,
    file_name := "x.txt", file_data := [], file_size := none,
    next_func := some DeferredAction.sendRequest }

/-- Engine state with the two sessions above queued for peer (1, 1). -/
def c8wst : EngineState :=
  { root_dir := ["root_dir"], session_dict := [((1, 1), [c8ws, c8wn])] }

/-- An ERROR packet used to terminate the head session. -/
def c8wp : Packet := { opcode := Opcode.error }

/-- Queued server session with its deferred OACK recorded. -/
def c8tn : Session :=
  { is_client := false, address := (2, 2), request := Opcode.rrq,
    file_name := "y.txt", file_data := [], file_size := some 0,
    next_func := some DeferredAction.sendOack }

/-- Fresh server session with a 6-byte payload, used to drive a full
three-ACK exchange. -/
def c9s : Session :=
  { is_client := false, address := (1, 1), request := Opcode.rrq,
    file_name := "w.txt", file_data := [1, 2, 3, 4, 5, 6], file_size := some 6,
    block_size := 4, timeout := 5 }

/-- Three matching ACK deliveries. -/
def c9ops : List (Nat × Packet) :=
  [(10, { opcode := Opcode.ack, block_number := 0 }),
   (11, { opcode := Opcode.ack, block_number := 1 }),
   (12, { opcode := Opcode.ack, block_number := 2 })]

/-- Server session at block 3 with a registered mismatched ACK about to
arrive (scenario E of the specification). -/
def c4s : Session :=
  { is_client := false, address := (5, 5), request := Opcode.rrq,
    file_name := "w.txt", file_data := [1, 2, 3, 4, 5, 6, 7, 8, 9], file_size := some 9,
    block_size := 4, timeout := 5, block_number := 3 }

/-- An ACK for block 2, one behind the expected block 3. -/
def c4p : Packet := { opcode := Opcode.ack, block_number := 2 }

/-- The empty filesystem. -/
def fs10 : FileSystem := { files := [], dirs := [] }

/-- The filesystem after creating directory a/b with its parent. -/
def fs10mk : FileSystem := { files := [], dirs := [["a"], ["a", "b"]] }
/-- Value of the shared failure path: the session marked failed and one ERROR
reply on the wire. -/
theorem handle_error_eq (now : Nat) (s : Session) (c : Nat) (m : String) :
    handle_error now s c m =
      ({ s with is_failed := true, last_contact_time := now,
                last_sent_packet := some (error_reply c ((ERROR_DICT.lookup c).getD m)) },
       [error_reply c ((ERROR_DICT.lookup c).getD m)]) := by
  simp [handle_error, send_error_packet, send_packet, error_reply]

/-- Field bookkeeping of `_get_next_data`: the failure flag, the stored
payload and the role are untouched, the block counter advances by one, and a
set done flag stays set. -/
theorem get_next_data_fields (hbs : Nat) (s : Session) :
    (get_next_data hbs s).fst.is_failed = s.is_failed ∧
    (get_next_data hbs s).fst.block_number = s.block_number + 1 ∧
    (get_next_data hbs s).fst.file_data = s.file_data ∧
    (get_next_data hbs s).fst.is_client = s.is_client ∧
    (s.is_done = true → (get_next_data hbs s).fst.is_done = true) := by
  simp only [get_next_data]
  repeat' split
  all_goals simp_all

/-- One receiver-role step keeps the terminal flags monotone and exclusive
and never decreases the block counter. -/
theorem receiver_step (now : Nat) (s : Session) (p : Packet) :
    (s.is_done = true → ((handle_packet_as_receiver now s p).fst.is_done = true)) ∧
    (s.is_failed = true → ((handle_packet_as_receiver now s p).fst.is_failed = true)) ∧
    s.block_number ≤ (handle_packet_as_receiver now s p).fst.block_number ∧
    (s.is_done = false → s.is_failed = false →
      ¬((handle_packet_as_receiver now s p).fst.is_done = true ∧
        (handle_packet_as_receiver now s p).fst.is_failed = true)) := by
  simp only [handle_packet_as_receiver, handle_error_eq, send_ack_packet, send_packet]
  repeat' split
  all_goals simp_all

/-- One sender-role step keeps the terminal flags monotone and exclusive and
never decreases the block counter. -/
theorem sender_step (now hbs : Nat) (s : Session) (p : Packet) :
    (s.is_done = true → ((handle_packet_as_sender now hbs s p).fst.is_done = true)) ∧
    (s.is_failed = true → ((handle_packet_as_sender now hbs s p).fst.is_failed = true)) ∧
    s.block_number ≤ (handle_packet_as_sender now hbs s p).fst.block_number ∧
    (s.is_done = false → s.is_failed = false →
      ¬((handle_packet_as_sender now hbs s p).fst.is_done = true ∧
        (handle_packet_as_sender now hbs s p).fst.is_failed = true)) := by
  obtain ⟨h1, h2, h3, h4, h5⟩ := get_next_data_fields hbs s
  simp only [handle_packet_as_sender, handle_error_eq, send_data_packet, send_packet]
  repeat' split
  all_goals simp_all

/-- One `_process_packet` step keeps the terminal flags monotone and
exclusive and never decreases the block counter. -/
theorem process_packet_step (now hbs : Nat) (s : Session) (p : Packet) :
    (s.is_done = true → ((process_packet now hbs s p).fst.is_done = true)) ∧
    (s.is_failed = true → ((process_packet now hbs s p).fst.is_failed = true)) ∧
    s.block_number ≤ (process_packet now hbs s p).fst.block_number ∧
    (s.is_done = false → s.is_failed = false →
      ¬((process_packet now hbs s p).fst.is_done = true ∧
        (process_packet now hbs s p).fst.is_failed = true)) := by
  simp only [process_packet]
  repeat' split
  · simp_all [handle_error_eq]
  · exact receiver_step now s p
  · exact sender_step now hbs s p

/-- A terminal session receives no further engine deliveries: every
engine-applied sequence leaves it unchanged. -/
theorem engineRun_frozen (hbs : Nat) (ops : List (Nat × Packet)) (s : Session)
    (h : s.is_done = true ∨ s.is_failed = true) : engineRun hbs s ops = s := by
  induction ops with
  | nil => rfl
  | cons op rest ih =>
    have hs : engineStep hbs s op = s := by simp [engineStep, h]
    calc engineRun hbs s (op :: rest)
        = engineRun hbs (engineStep hbs s op) rest := rfl
      _ = engineRun hbs s rest := by rw [hs]
      _ = s := ih

/-- The session invariant along any engine-applied delivery sequence. -/
theorem engineRun_invariant (hbs : Nat) (ops : List (Nat × Packet)) (s : Session)
    (h : ¬(s.is_done = true ∧ s.is_failed = true)) :
    ¬((engineRun hbs s ops).is_done = true ∧ (engineRun hbs s ops).is_failed = true) ∧
    (s.is_done = true → (engineRun hbs s ops).is_done = true) ∧
    (s.is_failed = true → (engineRun hbs s ops).is_failed = true) ∧
    s.block_number ≤ (engineRun hbs s ops).block_number := by
  induction ops generalizing s with
  | nil => exact ⟨h, fun hd => hd, fun hf => hf, Nat.le_refl _⟩
  | cons op rest ih =>
    have hrun : engineRun hbs s (op :: rest) = engineRun hbs (engineStep hbs s op) rest := rfl
    by_cases hterm : s.is_done = true ∨ s.is_failed = true
    · have hs : engineStep hbs s op = s := by simp [engineStep, hterm]
      rw [hrun, hs]
      exact ih s h
    · push_neg at hterm
      have hd : s.is_done = false := by
        cases hdd : s.is_done with
        | false => rfl
        | true => exact absurd hdd hterm.left
      have hf : s.is_failed = false := by
        cases hff : s.is_failed with
        | false => rfl
        | true => exact absurd hff hterm.right
      have hs : engineStep hbs s op = (process_packet op.fst hbs s op.snd).fst := by
        simp [engineStep, hd, hf]
      have hstep := process_packet_step op.fst hbs s op.snd
      have hnext := ih (engineStep hbs s op) (by rw [hs]; exact hstep.right.right.right hd hf)
      refine ⟨by rw [hrun]; exact hnext.left, ?_, ?_, ?_⟩
      · intro hdd; rw [hdd] at hd; exact absurd hd (by simp)
      · intro hff; rw [hff] at hf; exact absurd hf (by simp)
      · calc s.block_number ≤ (engineStep hbs s op).block_number := by
              rw [hs]; exact hstep.right.right.left
          _ ≤ (engineRun hbs (engineStep hbs s op) rest).block_number := hnext.right.right.right
          _ = (engineRun hbs s (op :: rest)).block_number := by rw [hrun]


/-- Wire events are not callback events. -/
theorem callbackEvents_sent (addr : Nat × Nat) (l : List Packet) :
    callbackEvents (l.map (Event.sent addr)) = [] := by
  induction l with
  | nil => rfl
  | cons q rest ih => simp_all [callbackEvents]

/-- `callbackEvents` distributes over append. -/
theorem callbackEvents_append (l1 l2 : List Event) :
    callbackEvents (l1 ++ l2) = callbackEvents l1 ++ callbackEvents l2 := by
  simp [callbackEvents, List.filter_append]

/-- Every event of the terminal callback dispatch is a callback event. -/
theorem callbackEvents_run_callbacks (s : Session) :
    callbackEvents (run_callbacks s) = run_callbacks s := by
  simp only [run_callbacks]
  repeat' split
  all_goals simp [callbackEvents]

/-- The terminal callback dispatch fires at most one callback. -/
theorem run_callbacks_len (s : Session) : (run_callbacks s).length ≤ 1 := by
  simp only [run_callbacks]
  repeat' split
  all_goals simp

/-- The normalization fold produces only regular components. -/
theorem foldl_norm_clean (p : List String) (acc : List String)
    (hacc : ∀ c ∈ acc, cleanComp c) :
    ∀ c ∈ List.foldl
        (fun acc c =>
          if c = "" ∨ c = "." then acc
          else if c = ".." then acc.dropLast
          else acc ++ [c]) acc p,
      cleanComp c := by
  induction p generalizing acc with
  | nil => simpa using hacc
  | cons d rest ih =>
    simp only [List.foldl_cons]
    apply ih
    intro c hc
    by_cases h1 : d = "" ∨ d = "."
    · rw [if_pos h1] at hc
      exact hacc c hc
    · rw [if_neg h1] at hc
      by_cases h2 : d = ".."
      · rw [if_pos h2] at hc
        exact hacc c (List.mem_of_mem_dropLast hc)
      · rw [if_neg h2] at hc
        rcases List.mem_append.mp hc with h | h
        · exact hacc c h
        · have hcd : c = d := by simpa using h
          subst hcd
          intro hbad
          rcases hbad with hb | hb | hb
          · exact h1 (Or.inl hb)
          · exact h1 (Or.inr hb)
          · exact h2 hb

/-- Every component of a normalized path is regular. -/
theorem normalizePath_clean (p : List String) :
    ∀ c ∈ normalizePath p, cleanComp c := by
  simpa [normalizePath] using foldl_norm_clean p [] (by simp)

/-- The normalization fold is plain concatenation on regular components. -/
theorem foldl_norm_of_clean (p : List String) (acc : List String)
    (hp : ∀ c ∈ p, cleanComp c) :
    List.foldl
        (fun acc c =>
          if c = "" ∨ c = "." then acc
          else if c = ".." then acc.dropLast
          else acc ++ [c]) acc p = acc ++ p := by
  induction p generalizing acc with
  | nil => simp
  | cons d rest ih =>
    have hd : cleanComp d := hp d (by simp)
    have h1 : ¬(d = "" ∨ d = ".") := fun h => hd (by tauto)
    have h2 : d ≠ ".." := fun h => hd (by tauto)
    simp only [List.foldl_cons, if_neg h1, if_neg h2]
    rw [ih (acc ++ [d]) (fun c hc => hp c (by simp [hc]))]
    simp

/-- Normalization is the identity on paths of regular components. -/
theorem normalizePath_of_clean (p : List String) (hp : ∀ c ∈ p, cleanComp c) :
    normalizePath p = p := by
  simpa [normalizePath] using foldl_norm_of_clean p [] hp

/-- Boolean membership in a directory list agrees with list membership. -/
theorem dirMem_iff (ds : List (List String)) (p : List String) :
    dirMem ds p = true ↔ p ∈ ds := by
  induction ds with
  | nil => simp [dirMem]
  | cons d rest ih =>
    simp only [dirMem]
    split
    · rename_i h
      simp [h]
    · rename_i h
      rw [ih]
      simp [List.mem_cons]
      intro he
      exact absurd he.symm h

/-- A successful `makedirs` leaves the files alone and appends the missing
directories of the chain. -/
theorem makedirs_ok (fs fs1 : FileSystem) (p : List String)
    (h : makedirs fs p = Except.ok fs1) :
    fs1.files = fs.files ∧
    fs1.dirs = fs.dirs ++ (pathInits (normalizePath p)).filter (fun a => ¬ fs.isdir a) := by
  simp only [makedirs] at h
  split at h
  · cases h
  · simp only [Except.ok.injEq] at h
    subst h
    exact ⟨rfl, rfl⟩

/-- A nonempty path is the last element of its own directory chain. -/
theorem mem_pathInits_self (q : List String) (h : q ≠ []) : q ∈ pathInits q := by
  have hl : 0 < q.length := List.length_pos.mpr h
  simp only [pathInits, List.mem_map]
  refine ⟨q.length - 1, List.mem_range.mpr (by omega), ?_⟩
  rw [Nat.sub_add_cancel hl]
  simp

/-- After a successful `makedirs`, every directory of the chain exists. -/
theorem makedirs_isdir (fs fs1 : FileSystem) (p : List String)
    (h : makedirs fs p = Except.ok fs1) :
    ∀ a ∈ pathInits (normalizePath p), fs1.isdir a = true := by
  obtain ⟨hfiles, hdirs⟩ := makedirs_ok fs fs1 p h
  intro a ha
  have hclean : ∀ c ∈ a, cleanComp c := by
    simp only [pathInits, List.mem_map] at ha
    obtain ⟨i, hi, rfl⟩ := ha
    intro c hc
    exact normalizePath_clean p c (List.mem_of_mem_take hc)
  have hna : normalizePath a = a := normalizePath_of_clean a hclean
  unfold FileSystem.isdir
  rw [hna, dirMem_iff, hdirs]
  by_cases hfs : fs.isdir a = true
  · have hmem : a ∈ fs.dirs := by
      unfold FileSystem.isdir at hfs
      rw [hna] at hfs
      exact (dirMem_iff _ _).mp hfs
    exact List.mem_append.mpr (Or.inl hmem)
  · refine List.mem_append.mpr (Or.inr ?_)
    rw [List.mem_filter]
    exact ⟨ha, by simp [hfs]⟩

/-! ## Claim theorems -/

/-- Claim C1 (code bug at handler.py line 223): a second read request from a
peer with an active head session is enqueued with no wire traffic, but the
deferred OACK action is assigned to the handler attribute `self.next_func`
instead of `session.next_func`, so the queued server session carries no
deferred start; when the head session vacates, promotion raises an attribute
error and no OACK is sent.  A queued client session, by contrast, does record
its deferred start and its promotion sends the RRQ. -/
theorem claim_C1_code_bug :
    (handle_new_request 2 fsA c1stHead 1 1 rrqA = Except.ok (c1stTwo, [])) ∧
    (((dictGet c1stTwo.session_dict (1, 1)).getD []).drop 1).map Session.next_func
      = [none] ∧
    c1stTwo.handler_next_func = some DeferredAction.sendOack ∧
    data_came_in 3 fsA c1stTwo (1, 1) (some { opcode := Opcode.error }) =
      Except.error (PyError.attribute_error "session has no next_func") ∧
    ((download_file 2 c1stc1 "g.txt" 7 7 true true).snd = [] ∧
     (((dictGet c1stc2.session_dict (7, 7)).getD []).drop 1).map Session.next_func
       = [some DeferredAction.sendRequest] ∧
     (match data_came_in 3 fsA c1stc2 (7, 7) (some { opcode := Opcode.error }) with
      | Except.ok r => (r.snd.filter (fun e =>
          match e with
          | Event.sent _ q => decide (q.opcode = Opcode.rrq)
          | _ => false)).length
      | Except.error _ => 0) = 1) := by decide

/-- Claim C2 (code bug at handler.py line 114): the timeout comparison is
inverted.  At sweep time 101 the head session (last contact 100, timeout 5)
has NOT yet timed out, yet the sweep fails it, invokes its failure callback
and removes the queue; at sweep time 200 the timeout HAS elapsed, yet the
sweep leaves the session in place. -/
theorem claim_C2_code_bug :
    c2s.last_contact_time + c2s.timeout > 101 ∧
    check_timeout 101 c2st =
      Except.ok ({ c2st with session_dict := [] },
                 [Event.failure_cb_timeout "report.txt"]) ∧
    c2s.last_contact_time + c2s.timeout ≤ 200 ∧
    check_timeout 200 c2st = Except.ok (c2st, []) := by decide

/-- Claim C3 (code bug at handler.py lines 290 to 307 and 374 to 396): block
extraction deviates from the claim in three ways.  With equal negotiated and
configured block size 4 and a 3-byte payload, the first matching ACK extracts
the short block and marks the session done, but the DATA packet is then NOT
sent (the sender suppresses the final short block, so a payload shorter than
one block is never transmitted).  With negotiated size 4 but configured
handler size 2, the slice end uses the configured size and only 2 bytes are
extracted.  And a short extracted block after a full one does not mark the
session done at that exchange: the done check reads the PREVIOUS read count,
so completion is detected one ACK later. -/
theorem claim_C3_code_bug :
    ((get_next_data 4 c3s).snd = [1, 2, 3] ∧
     (get_next_data 4 c3s).fst.is_done = true ∧
     (handle_packet_as_sender 40 4 c3s c3ack).fst.is_done = true ∧
     (handle_packet_as_sender 40 4 c3s c3ack).snd = []) ∧
    (c3s.block_size = 4 ∧ (get_next_data 2 c3s).snd = [1, 2]) ∧
    ((get_next_data 4 (get_next_data 4 c3s6).fst).snd = [5, 6] ∧
     (get_next_data 4 (get_next_data 4 c3s6).fst).fst.is_done = false) := by decide

/-- Claim C4 (confirmed): for a live session, a DATA packet (client role) or
ACK packet (server role) whose block number differs from the expected one
marks the session failed, emits exactly one ERROR reply and no DATA, leaves
the accumulated payload and the block counter untouched (the packet is
neither buffered nor skipped), and the failed session receives no further
engine deliveries, so no further DATA is ever sent for it. -/
theorem claim_C4_block_mismatch (now hbs : Nat) (s : Session) (p : Packet)
    (hlive : s.is_done = false ∧ s.is_failed = false)
    (hmm : p.block_number ≠ s.block_number)
    (hrole : (s.is_client = true ∧ p.opcode = Opcode.data) ∨
             (s.is_client = false ∧ p.opcode = Opcode.ack)) :
    (process_packet now hbs s p).fst.is_failed = true ∧
    (process_packet now hbs s p).fst.is_done = false ∧
    (process_packet now hbs s p).snd = [error_reply 0 ((ERROR_DICT.lookup 0).getD "")] ∧
    (process_packet now hbs s p).fst.file_data = s.file_data ∧
    (process_packet now hbs s p).fst.block_number = s.block_number ∧
    (∀ ops, engineRun hbs (process_packet now hbs s p).fst ops =
            (process_packet now hbs s p).fst) := by
  have key : process_packet now hbs s p = handle_error now s 0 := by
    rcases hrole with ⟨hc, hop⟩ | ⟨hc, hop⟩
    · simp [process_packet, hc, hop, handle_packet_as_receiver, hmm]
    · simp [process_packet, hc, hop, handle_packet_as_sender, hmm]
  rw [key, handle_error_eq]
  refine ⟨by simp, by simp [hlive.left], by simp, by simp, by simp, ?_⟩
  intro ops
  apply engineRun_frozen
  right
  simp

/-- Claim C4 witness: scenario E of the specification at concrete values; the
server session expects ACK 3 and receives ACK 2. -/
theorem claim_C4_witness :
    ((c4s.is_done = false ∧ c4s.is_failed = false) ∧
     c4p.block_number ≠ c4s.block_number ∧
     ((c4s.is_client = true ∧ c4p.opcode = Opcode.data) ∨
      (c4s.is_client = false ∧ c4p.opcode = Opcode.ack))) ∧
    (process_packet 20 4 c4s c4p).fst.is_failed = true ∧
    (process_packet 20 4 c4s c4p).fst.is_done = false ∧
    (process_packet 20 4 c4s c4p).snd = [error_reply 0 ((ERROR_DICT.lookup 0).getD "")] ∧
    (process_packet 20 4 c4s c4p).fst.file_data = c4s.file_data ∧
    (process_packet 20 4 c4s c4p).fst.block_number = c4s.block_number ∧
    engineRun 4 (process_packet 20 4 c4s c4p).fst [(21, c4p)] =
      (process_packet 20 4 c4s c4p).fst := by
  have h := claim_C4_block_mismatch 20 4 c4s c4p (by decide) (by decide) (by decide)
  exact ⟨⟨by decide, by decide, by decide⟩,
    h.left, h.right.left, h.right.right.left, h.right.right.right.left,
    h.right.right.right.right.left, h.right.right.right.right.right [(21, c4p)]⟩

/-- Claim C5 (code bug at handler.py lines 225 to 243): the requested name is
joined to the root directory with no containment check, so a name with
parent-directory components resolves outside the root; the request
`../secret` reads the file `secret` that lies outside `root_dir` and a
session serving its content is created. -/
theorem claim_C5_code_bug :
    normalizePath (osPathJoin ["root_dir"] (splitPath "../secret")) = ["secret"] ∧
    (normalizePath (osPathJoin ["root_dir"] (splitPath "../secret"))).take 1
      ≠ ["root_dir"] ∧
    load_file c5fs ["root_dir"] (splitPath "../secret") = Except.ok ([9, 9], 2) ∧
    (match handle_new_request 0 c5fs stA 3 3 c5rrq with
     | Except.ok r => ((dictGet r.fst.session_dict (3, 3)).getD []).map Session.file_data
     | Except.error _ => []) = [[9, 9]] := by decide

/-- Claim C6 (code bug at handler.py lines 202 to 206 and 233 to 243): a
resolution failure creates no session and sends no ERROR reply, but it is
signalled by raising an OSError that `_handle_new_request` and `data_came_in`
do not catch, so the exception escapes the inbound-datagram entry point to
the transport collaborator instead of being handled locally. -/
theorem claim_C6_code_bug :
    load_file fsA ["root_dir"] (splitPath "nope.txt") =
      Except.error (PyError.os_error "file does not exist") ∧
    handle_new_request 0 fsA stA 2 2 c6rrq =
      Except.error (PyError.os_error "file does not exist") ∧
    data_came_in 0 fsA stA (2, 2) (some c6rrq) =
      Except.error (PyError.os_error "file does not exist") := by decide

/-- Claim C7 counterexample: receipt of an ERROR packet does fail the session
but, contrary to the claim, a reply packet IS sent back to the peer (the
shared failure path always emits an ERROR reply). -/
theorem claim_C7_counterexample :
    (process_packet 30 512 c7s c7p).fst.is_failed = true ∧
    (process_packet 30 512 c7s c7p).snd ≠ [] := by decide

/-- Claim C7 as amended: for every active session, receipt of an ERROR packet
from the peer marks the session failed and sends one ERROR reply (code 0,
via the shared failure path) back to the peer. -/
theorem claim_C7_amended (now hbs : Nat) (s : Session) (p : Packet)
    (hop : p.opcode = Opcode.error) :
    (process_packet now hbs s p).fst.is_failed = true ∧
    (process_packet now hbs s p).snd = [error_reply 0 ((ERROR_DICT.lookup 0).getD "")] := by
  simp [process_packet, hop, handle_error_eq]

/-- Claim C7 witness: the amended claim at a concrete session and packet. -/
theorem claim_C7_witness :
    c7p.opcode = Opcode.error ∧
    (process_packet 30 512 c7s c7p).fst.is_failed = true ∧
    (process_packet 30 512 c7s c7p).snd = [error_reply 0 ((ERROR_DICT.lookup 0).getD "")] :=
  ⟨by decide, claim_C7_amended 30 512 c7s c7p (by decide)⟩

/-- Claim C8 counterexample: a session dequeued as failed by the timeout
sweep has its failure callback invoked with the session FILE NAME (plus a
timeout indicator), not with the accumulated partial payload [1, 2, 3]; no
callback carrying the payload fires, contrary to the claim. -/
theorem claim_C8_counterexample :
    c8s.file_data = [1, 2, 3] ∧
    check_timeout 101 c8st =
      Except.ok ({ c8st with session_dict := [] },
                 [Event.failure_cb_timeout "report.txt"]) ∧
    (match check_timeout 101 c8st with
     | Except.ok r => r.snd.filter (fun e =>
         match e with
         | Event.failure_cb_data _ => true
         | Event.success_cb _ => true
         | _ => false)
     | Except.error _ => []) = [] := by decide

/-- Claim C8 as amended: a session that becomes terminal during response
processing is dequeued before the next queued session is promoted and
triggers at most one callback event, and exactly one when the corresponding
callback is registered: the success callback with the accumulated data on
DONE, else the failure callback with the accumulated data on FAILED.  A
session removed by the timeout sweep is likewise dequeued before the next
session is promoted, but its failure callback is invoked with the session
file name rather than the accumulated payload. -/
theorem claim_C8_amended (now : Nat) (fs : FileSystem) (st : EngineState)
    (addr : Nat × Nat) (p : Packet) (s nxt : Session) (others : List Session)
    (a : DeferredAction) (key : Nat × Nat) (now2 : Nat) (ts nxt2 : Session)
    (others2 : List Session) (a2 : DeferredAction)
    (hq : dictGet st.session_dict addr = some (s :: nxt :: others))
    (hop : p.opcode ≠ Opcode.rrq ∧ p.opcode ≠ Opcode.wrq)
    (hterm : (process_packet now st.block_size s p).fst.is_done = true ∨
             (process_packet now st.block_size s p).fst.is_failed = true)
    (hnx : nxt.next_func = some a)
    (htime : ts.last_contact_time + ts.timeout > now2)
    (hcb : ts.failure_callback = true)
    (hnx2 : nxt2.next_func = some a2) :
    (∃ pr, invoke_next_func now nxt = Except.ok pr ∧
      data_came_in now fs st addr (some p) =
        Except.ok
          ({ st with session_dict := dictSet st.session_dict addr (pr.fst :: others) },
           (process_packet now st.block_size s p).snd.map (Event.sent addr)
             ++ pr.snd.map (Event.sent addr)
             ++ run_callbacks (process_packet now st.block_size s p).fst) ∧
      callbackEvents
          ((process_packet now st.block_size s p).snd.map (Event.sent addr)
             ++ pr.snd.map (Event.sent addr)
             ++ run_callbacks (process_packet now st.block_size s p).fst)
        = run_callbacks (process_packet now st.block_size s p).fst) ∧
    (run_callbacks (process_packet now st.block_size s p).fst).length ≤ 1 ∧
    ((process_packet now st.block_size s p).fst.is_done = true →
       (process_packet now st.block_size s p).fst.success_callback = true →
       run_callbacks (process_packet now st.block_size s p).fst
         = [Event.success_cb (process_packet now st.block_size s p).fst.file_data]) ∧
    ((process_packet now st.block_size s p).fst.is_done = false →
       (process_packet now st.block_size s p).fst.is_failed = true →
       (process_packet now st.block_size s p).fst.failure_callback = true →
       run_callbacks (process_packet now st.block_size s p).fst
         = [Event.failure_cb_data (process_packet now st.block_size s p).fst.file_data]) ∧
    (∃ pr2, invoke_next_func now2 nxt2 = Except.ok pr2 ∧
      check_timeout_entries now2 [(key, ts :: nxt2 :: others2)] =
        Except.ok ([(key, pr2.fst :: others2)],
          [Event.failure_cb_timeout ts.file_name] ++ pr2.snd.map (Event.sent key)) ∧
      callbackEvents
          ([Event.failure_cb_timeout ts.file_name] ++ pr2.snd.map (Event.sent key))
        = [Event.failure_cb_timeout ts.file_name]) := by
  refine ⟨?_, run_callbacks_len _, ?_, ?_, ?_⟩
  · have hinv : ∃ pr, invoke_next_func now nxt = Except.ok pr := by
      cases a2m : nxt.next_func with
      | none => rw [a2m] at hnx; cases hnx
      | some b =>
        cases b
        · exact ⟨send_request_packet now nxt, by simp [invoke_next_func, a2m]⟩
        · exact ⟨send_oack_packet now nxt, by simp [invoke_next_func, a2m]⟩
    obtain ⟨pr, hpr⟩ := hinv
    refine ⟨pr, hpr, ?_, ?_⟩
    · have hterm2 : (¬ (process_packet now st.block_size s p).fst.is_done = true ∧
          ¬ (process_packet now st.block_size s p).fst.is_failed = true) = False := by
        rcases hterm with h | h <;> simp [h]
      simp only [data_came_in, hop.left, hop.right, hq, hpr]
      simp [hterm2, hpr, Except.bind]
      rcases hterm with h | h <;> simp [h]
    · rw [callbackEvents_append, callbackEvents_append, callbackEvents_sent,
        callbackEvents_sent, callbackEvents_run_callbacks]
      simp
  · intro h1 h2
    simp [run_callbacks, h1, h2]
  · intro h1 h2 h3
    simp [run_callbacks, h1, h2, h3]
  · have hinv : ∃ pr2, invoke_next_func now2 nxt2 = Except.ok pr2 := by
      cases a2m : nxt2.next_func with
      | none => rw [a2m] at hnx2; cases hnx2
      | some b =>
        cases b
        · exact ⟨send_request_packet now2 nxt2, by simp [invoke_next_func, a2m]⟩
        · exact ⟨send_oack_packet now2 nxt2, by simp [invoke_next_func, a2m]⟩
    obtain ⟨pr2, hpr2⟩ := hinv
    refine ⟨pr2, hpr2, ?_, ?_⟩
    · simp [check_timeout_entries, htime, hcb, hpr2, Except.bind]
    · rw [callbackEvents_append, callbackEvents_sent]
      simp [callbackEvents]

/-- Claim C8 witness: the amended claim at concrete values; the head of queue
(1, 1) fails on a remote ERROR at time 50 and the queued client session is
promoted; for the timeout part the head of queue (2, 2) is swept at time 60
and the queued server session is promoted. -/
theorem claim_C8_witness :
    (dictGet c8wst.session_dict (1, 1) = some (c8ws :: c8wn :: []) ∧
     (c8wp.opcode ≠ Opcode.rrq ∧ c8wp.opcode ≠ Opcode.wrq) ∧
     ((process_packet 50 c8wst.block_size c8ws c8wp).fst.is_done = true ∨
      (process_packet 50 c8wst.block_size c8ws c8wp).fst.is_failed = true) ∧
     c8wn.next_func = some DeferredAction.sendRequest ∧
     c8s.last_contact_time + c8s.timeout > 60 ∧
     c8s.failure_callback = true ∧
     c8tn.next_func = some DeferredAction.sendOack) ∧
    ((∃ pr, invoke_next_func 50 c8wn = Except.ok pr ∧
      data_came_in 50 fsA c8wst (1, 1) (some c8wp) =
        Except.ok
          ({ c8wst with session_dict := dictSet c8wst.session_dict (1, 1) (pr.fst :: []) },
           (process_packet 50 c8wst.block_size c8ws c8wp).snd.map (Event.sent (1, 1))
             ++ pr.snd.map (Event.sent (1, 1))
             ++ run_callbacks (process_packet 50 c8wst.block_size c8ws c8wp).fst) ∧
      callbackEvents
          ((process_packet 50 c8wst.block_size c8ws c8wp).snd.map (Event.sent (1, 1))
             ++ pr.snd.map (Event.sent (1, 1))
             ++ run_callbacks (process_packet 50 c8wst.block_size c8ws c8wp).fst)
        = run_callbacks (process_packet 50 c8wst.block_size c8ws c8wp).fst) ∧
    (run_callbacks (process_packet 50 c8wst.block_size c8ws c8wp).fst).length ≤ 1 ∧
    ((process_packet 50 c8wst.block_size c8ws c8wp).fst.is_done = true →
       (process_packet 50 c8wst.block_size c8ws c8wp).fst.success_callback = true →
       run_callbacks (process_packet 50 c8wst.block_size c8ws c8wp).fst
         = [Event.success_cb (process_packet 50 c8wst.block_size c8ws c8wp).fst.file_data]) ∧
    ((process_packet 50 c8wst.block_size c8ws c8wp).fst.is_done = false →
       (process_packet 50 c8wst.block_size c8ws c8wp).fst.is_failed = true →
       (process_packet 50 c8wst.block_size c8ws c8wp).fst.failure_callback = true →
       run_callbacks (process_packet 50 c8wst.block_size c8ws c8wp).fst
         = [Event.failure_cb_data (process_packet 50 c8wst.block_size c8ws c8wp).fst.file_data]) ∧
    (∃ pr2, invoke_next_func 60 c8tn = Except.ok pr2 ∧
      check_timeout_entries 60 [((2, 2), c8s :: c8tn :: [])] =
        Except.ok ([((2, 2), pr2.fst :: [])],
          [Event.failure_cb_timeout c8s.file_name] ++ pr2.snd.map (Event.sent (2, 2))) ∧
      callbackEvents
          ([Event.failure_cb_timeout c8s.file_name] ++ pr2.snd.map (Event.sent (2, 2)))
        = [Event.failure_cb_timeout c8s.file_name])) :=
  ⟨⟨by decide, by decide, by decide, by decide, by decide, by decide, by decide⟩,
   claim_C8_amended 50 fsA c8wst (1, 1) c8wp c8ws c8wn [] DeferredAction.sendRequest
     (2, 2) 60 c8s c8tn [] DeferredAction.sendOack
     (by decide) (by decide) (by decide) (by decide) (by decide) (by decide) (by decide)⟩

/-- Claim C9 (confirmed): along any engine-applied sequence of deliveries
(the engine processes packets only for a non-terminal head and dequeues a
terminal session, so the run guard matches the engine), the terminal flags
are never both set, a set flag is never cleared, and the block counter never
decreases; the only session mutations of the timeout sweep and of promotion
are the initial-packet sends, which leave both flags and the block counter
unchanged. -/
theorem claim_C9_session_invariants (hbs : Nat) (ops : List (Nat × Packet)) (s : Session)
    (h : ¬(s.is_done = true ∧ s.is_failed = true)) :
    (¬((engineRun hbs s ops).is_done = true ∧ (engineRun hbs s ops).is_failed = true) ∧
     (s.is_done = true → (engineRun hbs s ops).is_done = true) ∧
     (s.is_failed = true → (engineRun hbs s ops).is_failed = true) ∧
     s.block_number ≤ (engineRun hbs s ops).block_number) ∧
    (∀ now2 : Nat, ∀ t : Session,
      ((send_request_packet now2 t).fst.is_done = t.is_done ∧
       (send_request_packet now2 t).fst.is_failed = t.is_failed ∧
       (send_request_packet now2 t).fst.block_number = t.block_number) ∧
      ((send_oack_packet now2 t).fst.is_done = t.is_done ∧
       (send_oack_packet now2 t).fst.is_failed = t.is_failed ∧
       (send_oack_packet now2 t).fst.block_number = t.block_number)) := by
  refine ⟨engineRun_invariant hbs ops s h, fun now2 t => ?_⟩
  simp [send_request_packet, send_oack_packet, send_packet]

/-- Claim C9 witness: the invariant along a full three-ACK server exchange at
concrete values. -/
theorem claim_C9_witness :
    (¬(c9s.is_done = true ∧ c9s.is_failed = true)) ∧
    (¬((engineRun 4 c9s c9ops).is_done = true ∧ (engineRun 4 c9s c9ops).is_failed = true) ∧
     (c9s.is_done = true → (engineRun 4 c9s c9ops).is_done = true) ∧
     (c9s.is_failed = true → (engineRun 4 c9s c9ops).is_failed = true) ∧
     c9s.block_number ≤ (engineRun 4 c9s c9ops).block_number) ∧
    (((send_request_packet 13 c9s).fst.is_done = c9s.is_done ∧
      (send_request_packet 13 c9s).fst.is_failed = c9s.is_failed ∧
      (send_request_packet 13 c9s).fst.block_number = c9s.block_number) ∧
     ((send_oack_packet 13 c9s).fst.is_done = c9s.is_done ∧
      (send_oack_packet 13 c9s).fst.is_failed = c9s.is_failed ∧
      (send_oack_packet 13 c9s).fst.block_number = c9s.block_number)) :=
  ⟨by decide,
   (claim_C9_session_invariants 4 c9ops c9s (by decide)).left,
   (claim_C9_session_invariants 4 c9ops c9s (by decide)).right 13 c9s⟩

/-- Claim C10 (confirmed): on construction, a missing root directory is
created together with its parents (any creation failure propagates out of
the constructor unchanged), and a root path that exists but is not a
directory makes the constructor raise; an existing root directory is
accepted with no side effect. -/
theorem claim_C10_constructor (fs : FileSystem) (root : List String)
    (hroot : normalizePath root ≠ []) :
    (fs.pathExists root = false →
      (∀ e, tftp_init fs root = Except.error e ↔ makedirs fs root = Except.error e) ∧
      (∀ fs1, makedirs fs root = Except.ok fs1 →
        tftp_init fs root = Except.ok fs1 ∧
        fs1.isdir root = true ∧
        ∀ a ∈ pathInits (normalizePath root), fs1.isdir a = true)) ∧
    (fs.pathExists root = true →
      (fs.isdir root = true → tftp_init fs root = Except.ok fs) ∧
      (fs.isdir root = false →
        tftp_init fs root = Except.error (PyError.os_error "root_dir is not a directory"))) := by
  constructor
  · intro hex
    have hmk : ∀ fs1, makedirs fs root = Except.ok fs1 →
        fs1.isdir root = true ∧
        ∀ a ∈ pathInits (normalizePath root), fs1.isdir a = true := by
      intro fs1 hm
      have hall := makedirs_isdir fs fs1 root hm
      have hq := hall (normalizePath root) (mem_pathInits_self _ hroot)
      have hnq : normalizePath (normalizePath root) = normalizePath root :=
        normalizePath_of_clean _ (normalizePath_clean root)
      refine ⟨?_, hall⟩
      unfold FileSystem.isdir at hq ⊢
      rwa [hnq] at hq
    constructor
    · intro e
      cases m : makedirs fs root with
      | error e1 => simp [tftp_init, hex, m]
      | ok fs1 =>
        have hdone := (hmk fs1 m).left
        simp [tftp_init, hex, m, hdone]
    · intro fs1 hm
      have h2 := hmk fs1 hm
      have hdone := h2.left
      exact ⟨by simp [tftp_init, hex, hm, hdone], h2⟩
  · intro hex
    constructor
    · intro hdir
      simp [tftp_init, hex, hdir]
    · intro hdir
      simp [tftp_init, hex, hdir]

/-- Claim C10 witness: constructing over the empty filesystem with the
missing root a/b creates both directories of the chain. -/
theorem claim_C10_witness :
    (normalizePath ["a", "b"] ≠ [] ∧ fs10.pathExists ["a", "b"] = false ∧
     makedirs fs10 ["a", "b"] = Except.ok fs10mk) ∧
    tftp_init fs10 ["a", "b"] = Except.ok fs10mk ∧
    fs10mk.isdir ["a", "b"] = true ∧
    fs10mk.isdir ["a"] = true := by
  have h := (claim_C10_constructor fs10 ["a", "b"] (by decide)).left (by decide)
  have h2 := h.right fs10mk (by decide)
  exact ⟨⟨by decide, by decide, by decide⟩, h2.left, h2.right.left,
    h2.right.right ["a"] (by decide)⟩

end Tftp
